import Mathlib

/-!
Shallow embedding of the Tonnenpumpe2 controller (`src/main.cpp`, non-debug,
ledstripe build): a rainwater-harvesting pump controller for an ATTiny84.

The firmware's global variables become fields of `MachineState`; each C
function that the control loop calls becomes a Lean function on that state.
Digital outputs written through `digitalWrite` are tracked as boolean fields
(`relay` for `OUT_PUMP`, `ledPump` for `LED_PUMP`, and so on).  The per-tick
sensor readings (`isTankFull` etc. and `analogRead`) are supplied through an
`Inputs` record.  The terminal `while(true)` blink loop of `doAutoRestart` is
modelled by a `halted` flag: once set, every further step is one blink
iteration and the rest of the control loop never runs again, exactly as the
C loop never returns from the `while(true)`.  `wdtSignaled` records whether
`wdt_reset()` was called during the current step.
-/

namespace Tonnenpumpe

/-- The constant `ERR_LVL`: low-bound fault threshold of the analog sensor. -/
def ERR_LVL : Nat := 100

/-- The constant `MIN_LVL`: raw value of 4 mA, the calibrated zero point. -/
def MIN_LVL : Nat := 220

/-- The constant `MAX_LVL`: raw value at maximum water level. -/
def MAX_LVL : Nat := 942

/-- The constant `LOOP_TIME`: tick period in milliseconds. -/
def LOOP_TIME : Nat := 100

/-- The constant `LOOP_COR_FACT = 1000 / LOOP_TIME`: ticks per second. -/
def LOOP_COR_FACT : Nat := 1000 / LOOP_TIME

/-- The constant `RUN_ON_TIME` (non-debug build): pump run-on in seconds. -/
def RUN_ON_TIME : Nat := 15

/-- The constant `PUMP_LAP_COUNT = RUN_ON_TIME * LOOP_COR_FACT`: run-on ticks. -/
def PUMP_LAP_COUNT : Nat := RUN_ON_TIME * LOOP_COR_FACT

/-- The constant `MAX_AUTO_RESTART = 60L * 60L * LOOP_COR_FACT` (non-debug):
initial value of the scheduled-restart countdown `autoRestart`. -/
def MAX_AUTO_RESTART : Int := 60 * 60 * (LOOP_COR_FACT : Int)

/-- The constant `MAX_LVLS`: capacity of the level history ring buffer. -/
def MAX_LVLS : Nat := 7

/-- One tick's sensor and switch readings: the values `readAllInputs` obtains
from `isTankFull`, `isFilterFull`, `isAutoMode`, `isManualPump` (already
inverted for the active-low wiring) and `analogRead(SEN_TANK_FLOAT)`. -/
structure Inputs where
  tankFull : Bool
  filterFull : Bool
  autoMode : Bool
  manualPump : Bool
  rawLevel : Nat

/-- The firmware's global state plus the tracked digital outputs.
`lvls`/`pos` are the level history ring buffer and its cursor, `lvlerr` the
sensor fault flag, `tkFull`..`mnPump` the latched sensor snapshot, `pump` the
auto-path pump flag, `svPump` the manual-path latch, `ppCounter` the run-on
countdown, `tkLvl` the filtered level, `autoRestart` the restart budget.
`relay` is the `OUT_PUMP` output; `ledPump`..`ledAuto` are the LED outputs.
`halted` models being inside the terminal `while(true)` loop, and
`wdtSignaled` whether `wdt_reset()` ran during the last step. -/
structure MachineState where
  lvls : List Nat
  pos : Nat
  lvlerr : Bool
  tkFull : Bool
  flFull : Bool
  atMode : Bool
  mnPump : Bool
  pump : Bool
  svPump : Bool
  ppCounter : Nat
  tkLvl : Nat
  autoRestart : Int
  relay : Bool
  ledPump : Bool
  ledTankFull : Bool
  ledFilterFull : Bool
  ledAuto : Bool
  halted : Bool
  wdtSignaled : Bool
deriving Repr, DecidableEq

/-- `doPump(bool start)`: writes `LED_PUMP` and `OUT_PUMP`. -/
def doPump (start : Bool) (s : MachineState) : MachineState :=
  { s with ledPump := start, relay := start }

/-- `pumpOff()`. -/
def pumpOff (s : MachineState) : MachineState := doPump false s

/-- `pumpOn()`. -/
def pumpOn (s : MachineState) : MachineState := doPump true s

/-- `ledOff()`: all four discrete LEDs off. -/
def ledOff (s : MachineState) : MachineState :=
  { s with ledPump := false, ledTankFull := false,
           ledFilterFull := false, ledAuto := false }

/-- `doTankFull(tkFull)`: drive the tank-full LED. -/
def doTankFull (s : MachineState) : MachineState :=
  { s with ledTankFull := s.tkFull }

/-- `doFilterFull(flFull)`: drive the filter-full LED. -/
def doFilterFull (s : MachineState) : MachineState :=
  { s with ledFilterFull := s.flFull }

/-- The summing loop of `getAverage`: one pass over the 7 stored values
computing the `word` sum, the minimum (initialised to 100) and the maximum
(initialised to 0), then `byte((sum - (min + max)) / (MAX_LVLS - 2))`.
Stored values are bytes (at most 255), so the `word` sum (at most 1785)
cannot overflow and `sum >= min + max` always holds (`min <= 100` and both
are bounded by elements of the 7-entry list), hence plain `Nat` arithmetic
coincides with the C `word` arithmetic; the final `% 256` is the `byte`
cast. -/
def trimmedAvg (l : List Nat) : Nat :=
  let sum := l.foldl (fun a x => a + x) 0
  let mn := l.foldl (fun m x => if x < m then x else m) 100
  let mx := l.foldl (fun m x => if m < x then x else m) 0
  ((sum - (mn + mx)) / (MAX_LVLS - 2)) % 256

/-- `getAverage(byte newValue)`: store `newValue` at the cursor, advance the
cursor modulo `MAX_LVLS`, and return the trimmed average of the buffer. -/
def getAverage (newValue : Nat) (s : MachineState) : Nat × MachineState :=
  let lvls := s.lvls.set s.pos newValue
  let pos := (s.pos + 1) % MAX_LVLS
  (trimmedAvg lvls, { s with lvls := lvls, pos := pos })

/-- `getTankLevel()` applied to the raw `analogRead` sample: clear `lvlerr`,
fault out below `ERR_LVL`, clamp below `MIN_LVL`, otherwise
`byte(map(lvl, MIN_LVL, MAX_LVL, 0, 100))` — Arduino `map` is
`(x - in_min) * (out_max - out_min) / (in_max - in_min) + out_min` in `long`
arithmetic, which for `raw >= MIN_LVL` equals the `Nat` expression below;
the `% 256` is the `byte` cast — then feed the percentage to `getAverage`. -/
def getTankLevel (raw : Nat) (s : MachineState) : Nat × MachineState :=
  let s0 := { s with lvlerr := false }
  if raw < ERR_LVL then (0, { s0 with lvlerr := true })
  else if raw < MIN_LVL then (0, s0)
  else
    let percent := ((raw - MIN_LVL) * 100 / (MAX_LVL - MIN_LVL)) % 256
    getAverage percent s0

/-- `readAllInputs()`: latch the four discrete readings and the filtered
tank level into the globals. -/
def readAllInputs (i : Inputs) (s : MachineState) : MachineState :=
  let s1 := { s with tkFull := i.tankFull, flFull := i.filterFull,
                     atMode := i.autoMode, mnPump := i.manualPump }
  let r := getTankLevel i.rawLevel s1
  { r.2 with tkLvl := r.1 }

/-- `doManualPump()`: outside auto mode the relay follows `mnPump` through
the latch `svPump`, writing the relay only when the latch disagrees. -/
def doManualPump (s : MachineState) : MachineState :=
  if !s.atMode then
    if s.mnPump then
      if !s.svPump then { (pumpOn s) with svPump := true } else s
    else
      if s.svPump then { (pumpOff s) with svPump := false } else s
  else s

/-- The two counter-update statements at the head of `doAutoPump`'s auto
branch: retrigger `ppCounter := PUMP_LAP_COUNT` on `(flFull || mnPump) &&
!tkFull`, then force `ppCounter := 0` on `tkFull`. -/
def autoPumpCounterUpdate (s : MachineState) : Nat :=
  let c1 := if (s.flFull || s.mnPump) && !s.tkFull then PUMP_LAP_COUNT
            else s.ppCounter
  if s.tkFull then 0 else c1

/-- `doAutoPump()`: drive the auto-mode LED (lit when NOT auto), and in auto
mode update the run-on counter, then pump while the counter is positive
(decrementing it), else stop the pump. -/
def doAutoPump (s : MachineState) : MachineState :=
  let s0 := { s with ledAuto := !s.atMode }
  if s0.atMode then
    let s1 := { s0 with ppCounter := autoPumpCounterUpdate s0 }
    if 0 < s1.ppCounter then
      pumpOn { s1 with pump := true, ppCounter := s1.ppCounter - 1 }
    else
      pumpOff { s1 with pump := false }
  else s0

/-- `doAutoRestart()`: decrement `autoRestart`; while it stays positive call
`wdt_reset()`, otherwise force the pump and LEDs off and enter the terminal
blink loop (modelled by `halted := true`). -/
def doAutoRestart (s : MachineState) : MachineState :=
  let s1 := { s with autoRestart := s.autoRestart - 1 }
  if 0 < s1.autoRestart then
    { s1 with wdtSignaled := true }
  else
    { (ledOff (pumpOff s1)) with halted := true, wdtSignaled := false }

/-- The tail of `loop()` after `doAutoRestart` returned normally:
`readAllInputs`, the two status LEDs, `doManualPump`, `doAutoPump`.
(`doStrip` only renders the LED strip and touches no modelled state.) -/
def tickMain (i : Inputs) (s : MachineState) : MachineState :=
  doAutoPump (doManualPump (doFilterFull (doTankFull (readAllInputs i s))))

/-- One iteration of the system: if already inside the terminal loop, one
blink iteration (`LED_PUMP` toggles, nothing else happens, no `wdt_reset`);
otherwise one `loop()` pass, which stops after `doAutoRestart` when the
restart budget is exhausted (the C code never returns from the `while(true)`
there) and otherwise runs the rest of the loop body. -/
def tick (i : Inputs) (s : MachineState) : MachineState :=
  if s.halted then { s with ledPump := !s.ledPump, wdtSignaled := false }
  else
    let s1 := doAutoRestart s
    if s1.halted then s1 else tickMain i s1

/-- The state of a normal tick just before `doAutoPump` runs (used to state
what value the counter-update phase of `doAutoPump` writes). -/
def tickPre (i : Inputs) (s : MachineState) : MachineState :=
  doManualPump (doFilterFull (doTankFull (readAllInputs i (doAutoRestart s))))

/-- Iterate `tick` for `n` steps, feeding step `k` the inputs `f k`. -/
def run (f : Nat → Inputs) : Nat → MachineState → MachineState
  | 0, s => s
  | n + 1, s => tick (f n) (run f n s)

/-- The state right after `setup()`: all globals zero-initialised,
`autoRestart = MAX_AUTO_RESTART`, history zero-filled by `initAvr()`,
pump and LEDs forced off. -/
def initState : MachineState :=
  { lvls := List.replicate MAX_LVLS 0, pos := 0, lvlerr := false,
    tkFull := false, flFull := false, atMode := false, mnPump := false,
    pump := false, svPump := false, ppCounter := 0, tkLvl := 0,
    autoRestart := MAX_AUTO_RESTART, relay := false, ledPump := false,
    ledTankFull := false, ledFilterFull := false, ledAuto := false,
    halted := false, wdtSignaled := false }

example : PUMP_LAP_COUNT = 150 := by decide
example : MAX_AUTO_RESTART = 36000 := by decide

/-! ### Shape lemmas for one tick -/

theorem tick_halted (i : Inputs) (s : MachineState) (h : s.halted = true) :
    tick i s = { s with ledPump := !s.ledPump, wdtSignaled := false } := by
  simp [tick, h]

theorem tick_terminal (i : Inputs) (s : MachineState) (h1 : s.halted = false)
    (h2 : s.autoRestart ≤ 1) : tick i s = doAutoRestart s := by
  have hneg : ¬ ((0:Int) < s.autoRestart - 1) := by omega
  simp [tick, h1, doAutoRestart, hneg, ledOff, pumpOff, doPump]

theorem tick_normal (i : Inputs) (s : MachineState) (h1 : s.halted = false)
    (h2 : 1 < s.autoRestart) : tick i s = doAutoPump (tickPre i s) := by
  have hpos : (0:Int) < s.autoRestart - 1 := by omega
  simp [tick, h1, doAutoRestart, hpos, tickMain, tickPre]

/-! ### Projections of the pre-`doAutoPump` state -/

theorem tickPre_tkFull (i : Inputs) (s : MachineState) :
    (tickPre i s).tkFull = i.tankFull := by
  simp [tickPre, doManualPump, doFilterFull, doTankFull, readAllInputs,
        getTankLevel, getAverage, doAutoRestart, pumpOn, pumpOff, doPump, ledOff]
  split_ifs <;> rfl

theorem tickPre_flFull (i : Inputs) (s : MachineState) :
    (tickPre i s).flFull = i.filterFull := by
  simp [tickPre, doManualPump, doFilterFull, doTankFull, readAllInputs,
        getTankLevel, getAverage, doAutoRestart, pumpOn, pumpOff, doPump, ledOff]
  split_ifs <;> rfl

theorem tickPre_atMode (i : Inputs) (s : MachineState) :
    (tickPre i s).atMode = i.autoMode := by
  simp [tickPre, doManualPump, doFilterFull, doTankFull, readAllInputs,
        getTankLevel, getAverage, doAutoRestart, pumpOn, pumpOff, doPump, ledOff]
  split_ifs <;> rfl

theorem tickPre_mnPump (i : Inputs) (s : MachineState) :
    (tickPre i s).mnPump = i.manualPump := by
  simp [tickPre, doManualPump, doFilterFull, doTankFull, readAllInputs,
        getTankLevel, getAverage, doAutoRestart, pumpOn, pumpOff, doPump, ledOff]
  split_ifs <;> rfl

theorem tickPre_ppCounter (i : Inputs) (s : MachineState) :
    (tickPre i s).ppCounter = s.ppCounter := by
  simp [tickPre, doManualPump, doFilterFull, doTankFull, readAllInputs,
        getTankLevel, getAverage, doAutoRestart, pumpOn, pumpOff, doPump, ledOff]
  split_ifs <;> rfl

theorem tickPre_pump (i : Inputs) (s : MachineState) :
    (tickPre i s).pump = s.pump := by
  simp [tickPre, doManualPump, doFilterFull, doTankFull, readAllInputs,
        getTankLevel, getAverage, doAutoRestart, pumpOn, pumpOff, doPump, ledOff]
  split_ifs <;> rfl

theorem tickPre_autoRestart (i : Inputs) (s : MachineState) :
    (tickPre i s).autoRestart = s.autoRestart - 1 := by
  simp [tickPre, doManualPump, doFilterFull, doTankFull, readAllInputs,
        getTankLevel, getAverage, doAutoRestart, pumpOn, pumpOff, doPump, ledOff]
  split_ifs <;> rfl

theorem tickPre_svPump (i : Inputs) (s : MachineState) :
    (tickPre i s).svPump = if i.autoMode then s.svPump else i.manualPump := by
  simp [tickPre, doManualPump, doFilterFull, doTankFull, readAllInputs,
        getTankLevel, getAverage, doAutoRestart, pumpOn, pumpOff, doPump, ledOff]
  split_ifs <;> simp_all

theorem tickPre_relay (i : Inputs) (s : MachineState) (h2 : 1 < s.autoRestart) :
    (tickPre i s).relay =
      if i.autoMode then s.relay
      else if i.manualPump then (if s.svPump then s.relay else true)
      else (if s.svPump then false else s.relay) := by
  have hpos : (0:Int) < s.autoRestart - 1 := by omega
  simp [tickPre, doManualPump, doFilterFull, doTankFull, readAllInputs,
        getTankLevel, getAverage, doAutoRestart, hpos, pumpOn, pumpOff, doPump,
        ledOff]
  split_ifs <;> simp_all

/-! ### Projections of `doAutoPump` -/

theorem autoPumpCounterUpdate_eq (s : MachineState) :
    autoPumpCounterUpdate s =
      if s.tkFull then 0
      else if s.flFull || s.mnPump then PUMP_LAP_COUNT else s.ppCounter := by
  simp [autoPumpCounterUpdate]
  split_ifs <;> simp_all

theorem doAutoPump_manual (s : MachineState) (h : s.atMode = false) :
    doAutoPump s = { s with ledAuto := !s.atMode } := by
  simp [doAutoPump, h]

theorem doAutoPump_auto_ppCounter (s : MachineState) (h : s.atMode = true) :
    (doAutoPump s).ppCounter = autoPumpCounterUpdate s - 1 := by
  simp [doAutoPump, h, pumpOn, pumpOff, doPump, autoPumpCounterUpdate]
  split_ifs <;> simp_all

theorem doAutoPump_auto_relay (s : MachineState) (h : s.atMode = true) :
    (doAutoPump s).relay = decide (0 < autoPumpCounterUpdate s) := by
  simp [doAutoPump, h, pumpOn, pumpOff, doPump, autoPumpCounterUpdate]
  split_ifs <;> simp_all

theorem doAutoPump_auto_pump (s : MachineState) (h : s.atMode = true) :
    (doAutoPump s).pump = decide (0 < autoPumpCounterUpdate s) := by
  simp [doAutoPump, h, pumpOn, pumpOff, doPump, autoPumpCounterUpdate]
  split_ifs <;> simp_all

theorem doAutoPump_svPump (s : MachineState) :
    (doAutoPump s).svPump = s.svPump := by
  simp [doAutoPump, pumpOn, pumpOff, doPump]
  split_ifs <;> rfl

theorem doAutoPump_autoRestart (s : MachineState) :
    (doAutoPump s).autoRestart = s.autoRestart := by
  simp [doAutoPump, pumpOn, pumpOff, doPump]
  split_ifs <;> rfl

theorem doAutoPump_halted (s : MachineState) :
    (doAutoPump s).halted = s.halted := by
  simp [doAutoPump, pumpOn, pumpOff, doPump]
  split_ifs <;> rfl

theorem doAutoPump_wdtSignaled (s : MachineState) :
    (doAutoPump s).wdtSignaled = s.wdtSignaled := by
  simp [doAutoPump, pumpOn, pumpOff, doPump]
  split_ifs <;> rfl

theorem tickPre_halted (i : Inputs) (s : MachineState) (h2 : 1 < s.autoRestart) :
    (tickPre i s).halted = s.halted := by
  have hpos : (0:Int) < s.autoRestart - 1 := by omega
  simp [tickPre, doManualPump, doFilterFull, doTankFull, readAllInputs,
        getTankLevel, getAverage, doAutoRestart, hpos, pumpOn, pumpOff, doPump,
        ledOff]
  split_ifs <;> rfl

theorem tickPre_wdtSignaled (i : Inputs) (s : MachineState)
    (h2 : 1 < s.autoRestart) : (tickPre i s).wdtSignaled = true := by
  have hpos : (0:Int) < s.autoRestart - 1 := by omega
  simp [tickPre, doManualPump, doFilterFull, doTankFull, readAllInputs,
        getTankLevel, getAverage, doAutoRestart, hpos, pumpOn, pumpOff, doPump,
        ledOff]
  split_ifs <;> rfl

/-! ### Projections of `doAutoRestart` -/

theorem doAutoRestart_autoRestart (s : MachineState) :
    (doAutoRestart s).autoRestart = s.autoRestart - 1 := by
  simp [doAutoRestart, ledOff, pumpOff, doPump]
  split_ifs <;> rfl

theorem doAutoRestart_halted (s : MachineState) :
    (doAutoRestart s).halted =
      if 0 < s.autoRestart - 1 then s.halted else true := by
  by_cases h : (0:Int) < s.autoRestart - 1 <;>
    simp [doAutoRestart, h, ledOff, pumpOff, doPump]

theorem doAutoRestart_wdtSignaled (s : MachineState) :
    (doAutoRestart s).wdtSignaled = decide (0 < s.autoRestart - 1) := by
  by_cases h : (0:Int) < s.autoRestart - 1 <;>
    simp [doAutoRestart, h, ledOff, pumpOff, doPump]

theorem doAutoRestart_relay (s : MachineState) :
    (doAutoRestart s).relay =
      if 0 < s.autoRestart - 1 then s.relay else false := by
  by_cases h : (0:Int) < s.autoRestart - 1 <;>
    simp [doAutoRestart, h, ledOff, pumpOff, doPump]

theorem doAutoRestart_pump (s : MachineState) :
    (doAutoRestart s).pump = s.pump := by
  simp [doAutoRestart, ledOff, pumpOff, doPump]
  split_ifs <;> rfl

theorem doAutoRestart_ppCounter (s : MachineState) :
    (doAutoRestart s).ppCounter = s.ppCounter := by
  simp [doAutoRestart, ledOff, pumpOff, doPump]
  split_ifs <;> rfl

theorem doAutoRestart_svPump (s : MachineState) :
    (doAutoRestart s).svPump = s.svPump := by
  simp [doAutoRestart, ledOff, pumpOff, doPump]
  split_ifs <;> rfl

/-! ### Multi-step lemmas -/

theorem run_budget (f : Nat → Inputs) (s : MachineState) (h0 : s.halted = false) :
    ∀ n : Nat, (n : Int) ≤ s.autoRestart →
      (run f n s).autoRestart = s.autoRestart - n ∧
      ((run f n s).halted = true ↔ ((n : Int) = s.autoRestart ∧ 1 ≤ n)) ∧
      (1 ≤ n → ((run f n s).wdtSignaled = true ↔ (n : Int) < s.autoRestart)) := by
  intro n
  induction n with
  | zero => simp [run, h0]
  | succ n ih =>
    intro hn1
    have hn : (n : Int) ≤ s.autoRestart := by push_cast at hn1 ⊢; omega
    obtain ⟨ihb, ihh, _⟩ := ih hn
    have hlt : (n : Int) < s.autoRestart := by push_cast at hn1; omega
    have hnh : (run f n s).halted = false := by
      rcases h : (run f n s).halted with _ | _
      · rfl
      · exact absurd (ihh.mp h) (by omega)
    show _ ∧ _ ∧ _
    rcases lt_or_le (1 : Int) ((run f n s).autoRestart) with hgt | hle
    · have heq : tick (f n) (run f n s) = doAutoPump (tickPre (f n) (run f n s)) :=
        tick_normal _ _ hnh hgt
      refine ⟨?_, ?_, ?_⟩
      · rw [run, heq, doAutoPump_autoRestart, tickPre_autoRestart, ihb]
        push_cast; ring
      · rw [run, heq, doAutoPump_halted, tickPre_halted _ _ hgt, hnh]
        rw [ihb] at hgt
        constructor
        · intro h; cases h
        · intro h; exfalso; push_cast at h; omega
      · intro _
        rw [run, heq, doAutoPump_wdtSignaled, tickPre_wdtSignaled _ _ hgt]
        rw [ihb] at hgt
        constructor
        · intro _; push_cast; omega
        · intro _; rfl
    · have heq : tick (f n) (run f n s) = doAutoRestart (run f n s) :=
        tick_terminal _ _ hnh hle
      rw [ihb] at hle
      have hone : s.autoRestart - n = 1 := by omega
      refine ⟨?_, ?_, ?_⟩
      · rw [run, heq, doAutoRestart_autoRestart, ihb]
        push_cast; ring
      · rw [run, heq, doAutoRestart_halted, ihb, hone]
        simp
        omega
      · intro _
        rw [run, heq, doAutoRestart_wdtSignaled, ihb, hone]
        simp
        push_cast at hn1 ⊢; omega

theorem run_stays_halted (f : Nat → Inputs) (s : MachineState)
    (h : s.halted = true) :
    ∀ n : Nat, (run f n s).halted = true ∧ (run f n s).relay = s.relay ∧
      (run f n s).ppCounter = s.ppCounter ∧
      (1 ≤ n → (run f n s).wdtSignaled = false) := by
  intro n
  induction n with
  | zero => simp [run, h]
  | succ n ih =>
    obtain ⟨ih1, ih2, ih3, _⟩ := ih
    rw [run, tick_halted _ _ ih1]
    exact ⟨ih1, ih2, ih3, fun _ => rfl⟩

/-! ### The claims -/

/-- C1: in auto mode, on any (normal) tick whose inputs satisfy
`(filterFull || manualPumpRequest) && !tankFull` the counter-update phase of
`doAutoPump` writes exactly `PUMP_LAP_COUNT` into the run-on countdown,
whatever its prior value (retriggering refreshes it), after which the tick
pumps and leaves the countdown at `PUMP_LAP_COUNT - 1`; on any tick whose
input has `tankFull` the countdown is forced to 0 immediately, the tick ends
with the countdown at 0 and the pump relay off. -/
theorem c1_auto_trigger_and_cutoff (s : MachineState) (i : Inputs)
    (h1 : s.halted = false) (h2 : 1 < s.autoRestart) (ha : i.autoMode = true) :
    ((i.filterFull || i.manualPump) = true → i.tankFull = false →
       autoPumpCounterUpdate (tickPre i s) = PUMP_LAP_COUNT ∧
       (tick i s).ppCounter = PUMP_LAP_COUNT - 1 ∧ (tick i s).relay = true) ∧
    (i.tankFull = true →
       autoPumpCounterUpdate (tickPre i s) = 0 ∧
       (tick i s).ppCounter = 0 ∧ (tick i s).relay = false ∧
       (tick i s).pump = false) := by
  have hat : (tickPre i s).atMode = true := by rw [tickPre_atMode]; exact ha
  have hpre : autoPumpCounterUpdate (tickPre i s) =
      if i.tankFull then 0
      else if i.filterFull || i.manualPump then PUMP_LAP_COUNT
      else s.ppCounter := by
    rw [autoPumpCounterUpdate_eq, tickPre_tkFull, tickPre_flFull, tickPre_mnPump,
        tickPre_ppCounter]
  rw [tick_normal i s h1 h2]
  refine ⟨fun hf htk => ?_, fun htk => ?_⟩
  · rw [doAutoPump_auto_ppCounter _ hat, doAutoPump_auto_relay _ hat, hpre,
        hf, htk]
    refine ⟨rfl, rfl, by simp [PUMP_LAP_COUNT, RUN_ON_TIME, LOOP_COR_FACT,
      LOOP_TIME]⟩
  · rw [doAutoPump_auto_ppCounter _ hat, doAutoPump_auto_relay _ hat,
        doAutoPump_auto_pump _ hat, hpre, htk]
    refine ⟨rfl, rfl, by simp, by simp⟩

/-- C1 witness: from the initial state, with `filterFull` asserted in auto
mode and the tank not full, the counter-update phase writes
`PUMP_LAP_COUNT` and the tick pumps. -/
theorem c1_auto_trigger_and_cutoff_witness :
    initState.halted = false ∧ (1:Int) < initState.autoRestart ∧
    (autoPumpCounterUpdate (tickPre ⟨false, true, true, false, 500⟩ initState) =
        PUMP_LAP_COUNT ∧
      (tick ⟨false, true, true, false, 500⟩ initState).ppCounter =
        PUMP_LAP_COUNT - 1 ∧
      (tick ⟨false, true, true, false, 500⟩ initState).relay = true) :=
  ⟨rfl, by decide,
    (c1_auto_trigger_and_cutoff initState ⟨false, true, true, false, 500⟩ rfl
        (by decide) rfl).1 rfl rfl⟩

/-- C2 counterexample: outside auto mode the code never touches `ppCounter`;
a tick that reads `tankFull = true` in manual mode leaves a prior countdown
of 5 intact, so `tankFull` does NOT zero the countdown on every tick. -/
theorem c2_counterexample :
    (⟨true, false, false, false, 500⟩ : Inputs).tankFull = true ∧
    ({ initState with ppCounter := 5 } : MachineState).halted = false ∧
    (tick ⟨true, false, false, false, 500⟩
        { initState with ppCounter := 5 }).ppCounter = 5 ∧
    (tick ⟨true, false, false, false, 500⟩
        { initState with ppCounter := 5 }).ppCounter ≠ 0 := by
  refine ⟨rfl, rfl, by decide, by decide⟩

/-- C2 amended: on a normal tick that reads `tankFull = true`, the run-on
countdown is zeroed (and the relay switched off) when the tick is in auto
mode; in manual mode the auto path does not run and the countdown keeps its
prior value. -/
theorem c2_amended_tankFull_cutoff (s : MachineState) (i : Inputs)
    (h1 : s.halted = false) (h2 : 1 < s.autoRestart) (htk : i.tankFull = true) :
    (i.autoMode = true →
      (tick i s).ppCounter = 0 ∧ (tick i s).relay = false) ∧
    (i.autoMode = false → (tick i s).ppCounter = s.ppCounter) := by
  rw [tick_normal i s h1 h2]
  constructor
  · intro ha
    have hat : (tickPre i s).atMode = true := by rw [tickPre_atMode]; exact ha
    rw [doAutoPump_auto_ppCounter _ hat, doAutoPump_auto_relay _ hat,
        autoPumpCounterUpdate_eq, tickPre_tkFull, htk]
    exact ⟨rfl, by simp⟩
  · intro ha
    have hat : (tickPre i s).atMode = false := by rw [tickPre_atMode]; exact ha
    rw [doAutoPump_manual _ hat]
    exact tickPre_ppCounter i s

/-- C2 amended witness: in auto mode with `tankFull` read, a countdown of 5
is zeroed on that tick. -/
theorem c2_amended_tankFull_cutoff_witness :
    ({ initState with ppCounter := 5 } : MachineState).halted = false ∧
    (1:Int) < ({ initState with ppCounter := 5 } : MachineState).autoRestart ∧
    (tick ⟨true, false, true, false, 500⟩
        { initState with ppCounter := 5 }).ppCounter = 0 :=
  ⟨rfl, by decide,
    ((c2_amended_tankFull_cutoff { initState with ppCounter := 5 }
        ⟨true, false, true, false, 500⟩ rfl (by decide) rfl).1 rfl).1⟩

/-- C4: a raw sample below `MIN_LVL` makes `getTankLevel` return percent 0
and leave the history buffer and its cursor untouched, and the fault flag
ends up true exactly when the sample is also below `ERR_LVL`. -/
theorem c4_low_sample_no_history (raw : Nat) (s : MachineState)
    (h : raw < MIN_LVL) :
    (getTankLevel raw s).1 = 0 ∧
    (getTankLevel raw s).2.lvls = s.lvls ∧
    (getTankLevel raw s).2.pos = s.pos ∧
    ((getTankLevel raw s).2.lvlerr = true ↔ raw < ERR_LVL) := by
  by_cases he : raw < ERR_LVL <;> simp [getTankLevel, he, h]

/-- C4 witness: the sample 150 lies in `[ERR_LVL, MIN_LVL)`: percent 0, no
history change, no fault. -/
theorem c4_low_sample_no_history_witness :
    (150:Nat) < MIN_LVL ∧
    ((getTankLevel 150 initState).1 = 0 ∧
     (getTankLevel 150 initState).2.lvls = initState.lvls ∧
     (getTankLevel 150 initState).2.pos = initState.pos ∧
     ((getTankLevel 150 initState).2.lvlerr = true ↔ (150:Nat) < ERR_LVL)) :=
  ⟨by decide, c4_low_sample_no_history 150 initState (by decide)⟩

/-- C5: in manual mode a normal tick latches `svPump` to the request, leaves
the run-on countdown alone, switches the relay on exactly on a false-to-true
transition of the request (relative to the latch), off exactly on a
true-to-false transition, and leaves the relay untouched when latch and
request agree; concretely, toggling the request false, true, false over
three ticks from the initial state yields relay off, on, off. -/
theorem c5_manual_mode_edge_triggered (s : MachineState) (i : Inputs)
    (h1 : s.halted = false) (h2 : 1 < s.autoRestart)
    (hm : i.autoMode = false) :
    (tick i s).svPump = i.manualPump ∧
    (tick i s).ppCounter = s.ppCounter ∧
    (s.svPump = false → i.manualPump = true → (tick i s).relay = true) ∧
    (s.svPump = true → i.manualPump = false → (tick i s).relay = false) ∧
    (s.svPump = i.manualPump → (tick i s).relay = s.relay) ∧
    ((tick ⟨false, false, false, false, 500⟩ initState).relay = false ∧
     (tick ⟨false, false, false, true, 500⟩
        (tick ⟨false, false, false, false, 500⟩ initState)).relay = true ∧
     (tick ⟨false, false, false, false, 500⟩
        (tick ⟨false, false, false, true, 500⟩
          (tick ⟨false, false, false, false, 500⟩ initState))).relay =
       false) := by
  have hat : (tickPre i s).atMode = false := by rw [tickPre_atMode]; exact hm
  rw [tick_normal i s h1 h2, doAutoPump_manual _ hat]
  refine ⟨?_, tickPre_ppCounter i s, ?_, ?_, ?_, by decide, by decide, by decide⟩
  · show (tickPre i s).svPump = i.manualPump
    rw [tickPre_svPump, hm]
    simp
  · intro hsv hmp
    show (tickPre i s).relay = true
    rw [tickPre_relay i s h2, hm, hmp, hsv]
    simp
  · intro hsv hmp
    show (tickPre i s).relay = false
    rw [tickPre_relay i s h2, hm, hmp, hsv]
    simp
  · intro hsv
    show (tickPre i s).relay = s.relay
    rw [tickPre_relay i s h2, hm]
    cases h : i.manualPump <;> simp [h, hsv.trans h]

/-- C5 witness: a manual tick from the initial state with the request
asserted switches the relay on. -/
theorem c5_manual_mode_edge_triggered_witness :
    initState.halted = false ∧ (1:Int) < initState.autoRestart ∧
    (tick ⟨false, false, false, true, 500⟩ initState).relay = true :=
  ⟨rfl, by decide,
    (c5_manual_mode_edge_triggered initState ⟨false, false, false, true, 500⟩
        rfl (by decide) rfl).2.2.1 rfl rfl⟩

theorem run_manual_frame (f : Nat → Inputs)
    (hf : ∀ k, (f k).autoMode = false ∧ (f k).manualPump = false)
    (s : MachineState) (h0 : s.halted = false) (hsv : s.svPump = false) :
    ∀ n : Nat, (n : Int) < s.autoRestart →
      (run f n s).relay = s.relay ∧ (run f n s).ppCounter = s.ppCounter ∧
      (run f n s).svPump = false ∧ (run f n s).halted = false ∧
      (run f n s).autoRestart = s.autoRestart - n := by
  intro n
  induction n with
  | zero => simp [run, h0, hsv]
  | succ n ih =>
    intro hn1
    have hn : (n : Int) < s.autoRestart := by push_cast at hn1 ⊢; omega
    obtain ⟨ihr, ihp, ihs, ihh, ihb⟩ := ih hn
    have hgt : 1 < (run f n s).autoRestart := by
      rw [ihb]; push_cast at hn1 ⊢; omega
    have hat : (tickPre (f n) (run f n s)).atMode = false := by
      rw [tickPre_atMode]; exact (hf n).1
    rw [run, tick_normal _ _ ihh hgt, doAutoPump_manual _ hat]
    refine ⟨?_, ?_, ?_, ?_, ?_⟩
    · show (tickPre (f n) (run f n s)).relay = s.relay
      rw [tickPre_relay _ _ hgt, (hf n).1, (hf n).2, ihs, ihr]
      simp
    · show (tickPre (f n) (run f n s)).ppCounter = s.ppCounter
      rw [tickPre_ppCounter, ihp]
    · show (tickPre (f n) (run f n s)).svPump = false
      rw [tickPre_svPump, (hf n).1, (hf n).2]
      simp
    · show (tickPre (f n) (run f n s)).halted = false
      rw [tickPre_halted _ _ hgt, ihh]
    · show (tickPre (f n) (run f n s)).autoRestart = s.autoRestart - (n + 1 : Nat)
      rw [tickPre_autoRestart, ihb]
      push_cast; ring

/-- C6: starting from a live state with a positive restart budget `B`, every
tick up to (but excluding) the terminal one decrements `autoRestart` by
exactly 1 (budget `B - t` after `t` ticks) and signals the hardware watchdog
on that same tick; the terminal fault begins exactly on tick `B`, where the
budget reaches 0 — never earlier — and on that tick the watchdog is not
signaled.  The first conjunct states the per-tick decrement for any single
tick. -/
theorem c6_budget_decrement_and_terminal_onset (f : Nat → Inputs)
    (s : MachineState) (h0 : s.halted = false) (hb : 1 ≤ s.autoRestart) :
    (∀ i : Inputs, (tick i s).autoRestart = s.autoRestart - 1) ∧
    (∀ t : Nat, 1 ≤ t → (t : Int) < s.autoRestart →
      (run f t s).autoRestart = s.autoRestart - t ∧
      (run f t s).halted = false ∧ (run f t s).wdtSignaled = true) ∧
    (∀ t : Nat, (t : Int) = s.autoRestart →
      (run f t s).autoRestart = 0 ∧ (run f t s).halted = true ∧
      (run f t s).wdtSignaled = false) := by
  refine ⟨?_, ?_, ?_⟩
  · intro i
    by_cases hgt : 1 < s.autoRestart
    · rw [tick_normal i s h0 hgt, doAutoPump_autoRestart, tickPre_autoRestart]
    · rw [tick_terminal i s h0 (by omega), doAutoRestart_autoRestart]
  · intro t ht1 htB
    obtain ⟨hbud, hhal, hwdt⟩ := run_budget f s h0 t (le_of_lt htB)
    refine ⟨hbud, ?_, (hwdt ht1).mpr htB⟩
    rcases hh : (run f t s).halted with _ | _
    · rfl
    · exact absurd (hhal.mp hh) (by omega)
  · intro t htB
    have ht1 : 1 ≤ t := by
      by_contra hcon
      push_neg at hcon
      interval_cases t
      push_cast at htB
      omega
    obtain ⟨hbud, hhal, hwdt⟩ := run_budget f s h0 t (le_of_eq htB)
    refine ⟨by rw [hbud, htB]; ring, hhal.mpr ⟨htB, ht1⟩, ?_⟩
    rcases hw : (run f t s).wdtSignaled with _ | _
    · rfl
    · exact absurd ((hwdt ht1).mp hw) (by omega)

/-- C6 witness: with a budget of 3, after 2 ticks the budget is 1, the
system is live and the watchdog was signaled on tick 2; tick 3 reaches
budget 0, enters the terminal fault and does not signal the watchdog. -/
theorem c6_budget_decrement_and_terminal_onset_witness :
    ({ initState with autoRestart := 3 } : MachineState).halted = false ∧
    (1:Int) ≤ ({ initState with autoRestart := 3 } : MachineState).autoRestart ∧
    ((run (fun _ => ⟨false, false, false, false, 500⟩) 2
        { initState with autoRestart := 3 }).autoRestart =
      ({ initState with autoRestart := 3 } : MachineState).autoRestart - 2 ∧
     (run (fun _ => ⟨false, false, false, false, 500⟩) 2
        { initState with autoRestart := 3 }).halted = false ∧
     (run (fun _ => ⟨false, false, false, false, 500⟩) 2
        { initState with autoRestart := 3 }).wdtSignaled = true) ∧
    ((run (fun _ => ⟨false, false, false, false, 500⟩) 3
        { initState with autoRestart := 3 }).autoRestart = 0 ∧
     (run (fun _ => ⟨false, false, false, false, 500⟩) 3
        { initState with autoRestart := 3 }).halted = true ∧
     (run (fun _ => ⟨false, false, false, false, 500⟩) 3
        { initState with autoRestart := 3 }).wdtSignaled = false) :=
  ⟨rfl, by decide,
    (c6_budget_decrement_and_terminal_onset (fun _ => ⟨false, false, false, false, 500⟩)
        { initState with autoRestart := 3 } rfl (by decide)).2.1 2 (by decide)
      (by decide),
    (c6_budget_decrement_and_terminal_onset (fun _ => ⟨false, false, false, false, 500⟩)
        { initState with autoRestart := 3 } rfl (by decide)).2.2 3 (by decide)⟩

/-- C7: the tick on which the restart budget is exhausted forces the pump
relay off and all indicator LEDs off, does not signal the watchdog, and
enters the terminal state; from there every later step stays terminal, keeps
the relay off and never signals the watchdog again — there is no path back
to normal operation. -/
theorem c7_terminal_fault_absorbing (s : MachineState) (i : Inputs)
    (f : Nat → Inputs) (h1 : s.halted = false) (h2 : s.autoRestart ≤ 1) :
    (tick i s).halted = true ∧ (tick i s).relay = false ∧
    (tick i s).ledPump = false ∧ (tick i s).ledTankFull = false ∧
    (tick i s).ledFilterFull = false ∧ (tick i s).ledAuto = false ∧
    (tick i s).wdtSignaled = false ∧
    (∀ n : Nat, (run f n (tick i s)).halted = true ∧
      (run f n (tick i s)).relay = false ∧
      (1 ≤ n → (run f n (tick i s)).wdtSignaled = false)) := by
  have hneg : ¬ ((0:Int) < s.autoRestart - 1) := by omega
  have hterm : tick i s = doAutoRestart s := tick_terminal i s h1 h2
  have hhal : (tick i s).halted = true := by
    rw [hterm]; simp [doAutoRestart, hneg, ledOff, pumpOff, doPump]
  have hrel : (tick i s).relay = false := by
    rw [hterm]; simp [doAutoRestart, hneg, ledOff, pumpOff, doPump]
  refine ⟨hhal, hrel, ?_, ?_, ?_, ?_, ?_, ?_⟩
  · rw [hterm]; simp [doAutoRestart, hneg, ledOff, pumpOff, doPump]
  · rw [hterm]; simp [doAutoRestart, hneg, ledOff, pumpOff, doPump]
  · rw [hterm]; simp [doAutoRestart, hneg, ledOff, pumpOff, doPump]
  · rw [hterm]; simp [doAutoRestart, hneg, ledOff, pumpOff, doPump]
  · rw [hterm]; simp [doAutoRestart, hneg, ledOff, pumpOff, doPump]
  · intro n
    obtain ⟨ha, hb', _, hc⟩ := run_stays_halted f (tick i s) hhal n
    exact ⟨ha, hb'.trans hrel, hc⟩

/-- C7 witness: a state one tick from exhaustion enters the terminal fault:
relay and LEDs off, no watchdog signal, and 4 further steps stay terminal
with the relay off. -/
theorem c7_terminal_fault_absorbing_witness :
    ({ initState with autoRestart := 1, relay := true, ledPump := true } :
        MachineState).halted = false ∧
    ({ initState with autoRestart := 1, relay := true, ledPump := true } :
        MachineState).autoRestart ≤ 1 ∧
    ((tick ⟨false, true, true, false, 500⟩
        { initState with autoRestart := 1, relay := true, ledPump := true }).halted = true ∧
     (tick ⟨false, true, true, false, 500⟩
        { initState with autoRestart := 1, relay := true, ledPump := true }).relay = false ∧
     (run (fun _ => ⟨false, true, true, false, 500⟩) 4
        (tick ⟨false, true, true, false, 500⟩
          { initState with autoRestart := 1, relay := true, ledPump := true })).relay = false) := by
  have h := c7_terminal_fault_absorbing
    { initState with autoRestart := 1, relay := true, ledPump := true }
    ⟨false, true, true, false, 500⟩ (fun _ => ⟨false, true, true, false, 500⟩)
    rfl (by decide)
  exact ⟨rfl, by decide, h.1, h.2.1, (h.2.2.2.2.2.2.2 4).2.1⟩

/-- C9: the pump decision is independent of the analog level path — two
live states that agree on the restart budget and on the pump-relevant state
(`ppCounter`, `svPump`, `pump`, relay), fed inputs that agree on the four
discrete switches but have arbitrary raw analog levels (and arbitrary
history, cursor, fault flag and filtered level in the states), produce the
same relay output, pump flag, countdown and manual latch. -/
theorem c9_pump_independent_of_analog (s t : MachineState) (i j : Inputs)
    (hs : s.halted = false) (ht : t.halted = false)
    (hb : s.autoRestart = t.autoRestart)
    (hpp : s.ppCounter = t.ppCounter) (hsv : s.svPump = t.svPump)
    (hpu : s.pump = t.pump) (hre : s.relay = t.relay)
    (e1 : i.tankFull = j.tankFull) (e2 : i.filterFull = j.filterFull)
    (e3 : i.autoMode = j.autoMode) (e4 : i.manualPump = j.manualPump) :
    (tick i s).relay = (tick j t).relay ∧
    (tick i s).pump = (tick j t).pump ∧
    (tick i s).ppCounter = (tick j t).ppCounter ∧
    (tick i s).svPump = (tick j t).svPump := by
  by_cases hgt : 1 < s.autoRestart
  · have hgt' : 1 < t.autoRestart := hb ▸ hgt
    rw [tick_normal i s hs hgt, tick_normal j t ht hgt']
    have hupd : autoPumpCounterUpdate (tickPre i s) =
        autoPumpCounterUpdate (tickPre j t) := by
      rw [autoPumpCounterUpdate_eq, autoPumpCounterUpdate_eq,
          tickPre_tkFull, tickPre_tkFull, tickPre_flFull, tickPre_flFull,
          tickPre_mnPump, tickPre_mnPump, tickPre_ppCounter, tickPre_ppCounter,
          e1, e2, e4, hpp]
    rcases ham : i.autoMode with _ | _
    · have ham' : j.autoMode = false := e3 ▸ ham
      have hat : (tickPre i s).atMode = false := by rw [tickPre_atMode]; exact ham
      have hat' : (tickPre j t).atMode = false := by
        rw [tickPre_atMode]; exact ham'
      rw [doAutoPump_manual _ hat, doAutoPump_manual _ hat']
      refine ⟨?_, ?_, ?_, ?_⟩
      · show (tickPre i s).relay = (tickPre j t).relay
        rw [tickPre_relay i s hgt, tickPre_relay j t hgt', e3, e4, hsv, hre]
      · show (tickPre i s).pump = (tickPre j t).pump
        rw [tickPre_pump, tickPre_pump, hpu]
      · show (tickPre i s).ppCounter = (tickPre j t).ppCounter
        rw [tickPre_ppCounter, tickPre_ppCounter, hpp]
      · show (tickPre i s).svPump = (tickPre j t).svPump
        rw [tickPre_svPump, tickPre_svPump, e3, e4, hsv]
    · have ham' : j.autoMode = true := e3 ▸ ham
      have hat : (tickPre i s).atMode = true := by rw [tickPre_atMode]; exact ham
      have hat' : (tickPre j t).atMode = true := by
        rw [tickPre_atMode]; exact ham'
      refine ⟨?_, ?_, ?_, ?_⟩
      · rw [doAutoPump_auto_relay _ hat, doAutoPump_auto_relay _ hat', hupd]
      · rw [doAutoPump_auto_pump _ hat, doAutoPump_auto_pump _ hat', hupd]
      · rw [doAutoPump_auto_ppCounter _ hat, doAutoPump_auto_ppCounter _ hat',
            hupd]
      · rw [doAutoPump_svPump, doAutoPump_svPump, tickPre_svPump,
            tickPre_svPump, e3, e4, hsv]
  · have hle : s.autoRestart ≤ 1 := by omega
    have hle' : t.autoRestart ≤ 1 := hb ▸ hle
    rw [tick_terminal i s hs hle, tick_terminal j t ht hle']
    refine ⟨?_, ?_, ?_, ?_⟩
    · rw [doAutoRestart_relay, doAutoRestart_relay, hb, hre]
    · rw [doAutoRestart_pump, doAutoRestart_pump, hpu]
    · rw [doAutoRestart_ppCounter, doAutoRestart_ppCounter, hpp]
    · rw [doAutoRestart_svPump, doAutoRestart_svPump, hsv]

/-- C9 witness: one tick on two states differing only in history, fault flag
and filtered level, with inputs differing only in the raw analog level
(1000 against 50, i.e. a faulted sample), gives identical relay, pump flag,
countdown and latch. -/
theorem c9_pump_independent_of_analog_witness :
    initState.halted = false ∧
    ({ initState with lvls := [99, 99, 99, 99, 99, 99, 99], pos := 3, lvlerr := true, tkLvl := 77 } : MachineState).halted = false ∧
    ((tick ⟨false, true, true, false, 1000⟩ initState).relay =
       (tick ⟨false, true, true, false, 50⟩
         { initState with lvls := [99, 99, 99, 99, 99, 99, 99], pos := 3, lvlerr := true, tkLvl := 77 }).relay ∧
     (tick ⟨false, true, true, false, 1000⟩ initState).pump =
       (tick ⟨false, true, true, false, 50⟩
         { initState with lvls := [99, 99, 99, 99, 99, 99, 99], pos := 3, lvlerr := true, tkLvl := 77 }).pump ∧
     (tick ⟨false, true, true, false, 1000⟩ initState).ppCounter =
       (tick ⟨false, true, true, false, 50⟩
         { initState with lvls := [99, 99, 99, 99, 99, 99, 99], pos := 3, lvlerr := true, tkLvl := 77 }).ppCounter ∧
     (tick ⟨false, true, true, false, 1000⟩ initState).svPump =
       (tick ⟨false, true, true, false, 50⟩
         { initState with lvls := [99, 99, 99, 99, 99, 99, 99], pos := 3, lvlerr := true, tkLvl := 77 }).svPump) :=
  ⟨rfl, rfl,
    c9_pump_independent_of_analog initState
      { initState with lvls := [99, 99, 99, 99, 99, 99, 99], pos := 3, lvlerr := true, tkLvl := 77 }
      ⟨false, true, true, false, 1000⟩ ⟨false, true, true, false, 50⟩
      rfl rfl rfl rfl rfl rfl rfl rfl rfl rfl rfl⟩

/-- C10: on a live non-terminal tick outside auto mode, the auto path leaves
the run-on countdown and the `pump` flag unchanged and the manual path
writes the relay only on edges of the request (latch equal to request means
the relay keeps its prior value); consequently a run of manual-mode ticks
with the request never asserted and a clear latch — as after the auto path
switched the pump on — keeps the relay, the countdown and the latch exactly
as they were, for as long as the restart budget lasts. -/
theorem c10_leaving_auto_mode_freezes_pump (s : MachineState) (i : Inputs)
    (h1 : s.halted = false) (h2 : 1 < s.autoRestart)
    (hm : i.autoMode = false) :
    (tick i s).ppCounter = s.ppCounter ∧
    (tick i s).pump = s.pump ∧
    (s.svPump = i.manualPump → (tick i s).relay = s.relay) ∧
    (∀ (f : Nat → Inputs),
      (∀ k, (f k).autoMode = false ∧ (f k).manualPump = false) →
      s.svPump = false →
      ∀ n : Nat, (n : Int) < s.autoRestart →
        (run f n s).relay = s.relay ∧ (run f n s).ppCounter = s.ppCounter ∧
        (run f n s).svPump = false) := by
  have hat : (tickPre i s).atMode = false := by rw [tickPre_atMode]; exact hm
  refine ⟨?_, ?_, ?_, ?_⟩
  · rw [tick_normal i s h1 h2, doAutoPump_manual _ hat]
    exact tickPre_ppCounter i s
  · rw [tick_normal i s h1 h2, doAutoPump_manual _ hat]
    exact tickPre_pump i s
  · intro hsv
    rw [tick_normal i s h1 h2, doAutoPump_manual _ hat]
    show (tickPre i s).relay = s.relay
    rw [tickPre_relay i s h2, hm]
    cases h : i.manualPump <;> simp [h, hsv.trans h]
  · intro f hf hsv n hn
    obtain ⟨ha, hb', hc, _, _⟩ := run_manual_frame f hf s h1 hsv n hn
    exact ⟨ha, hb', hc⟩

/-- C10 witness: a state with the relay on from the auto path (latch clear),
budget 5, run for 3 manual-off ticks: the relay stays on, the countdown and
the latch are unchanged. -/
theorem c10_leaving_auto_mode_freezes_pump_witness :
    ({ initState with relay := true, ledPump := true, pump := true, autoRestart := 5 } : MachineState).halted = false ∧
    (1:Int) < ({ initState with relay := true, ledPump := true, pump := true, autoRestart := 5 } : MachineState).autoRestart ∧
    ((run (fun _ => ⟨false, false, false, false, 500⟩) 3
        { initState with relay := true, ledPump := true, pump := true, autoRestart := 5 }).relay =
      ({ initState with relay := true, ledPump := true, pump := true, autoRestart := 5 } : MachineState).relay ∧
     (run (fun _ => ⟨false, false, false, false, 500⟩) 3
        { initState with relay := true, ledPump := true, pump := true, autoRestart := 5 }).ppCounter =
      ({ initState with relay := true, ledPump := true, pump := true, autoRestart := 5 } : MachineState).ppCounter ∧
     (run (fun _ => ⟨false, false, false, false, 500⟩) 3
        { initState with relay := true, ledPump := true, pump := true, autoRestart := 5 }).svPump = false) :=
  ⟨rfl, by decide,
    (c10_leaving_auto_mode_freezes_pump
        { initState with relay := true, ledPump := true, pump := true, autoRestart := 5 }
        ⟨false, false, false, false, 500⟩ rfl (by decide) rfl).2.2.2
      (fun _ => ⟨false, false, false, false, 500⟩) (fun _ => ⟨rfl, rfl⟩) rfl 3
      (by decide)⟩

/-! ### Lemmas about the summing loop of `getAverage` -/

theorem foldl_stepMin_eq (l : List Nat) :
    ∀ init, l.foldl (fun m x => if x < m then x else m) init
      = l.foldl Nat.min init := by
  induction l with
  | nil => intro init; rfl
  | cons a l ih =>
    intro init
    show l.foldl _ (if a < init then a else init) = l.foldl Nat.min (Nat.min init a)
    rw [ih]
    congr 1
    rw [Nat.min_eq_min]
    split_ifs <;> omega

theorem foldl_stepMax_eq (l : List Nat) :
    ∀ init, l.foldl (fun m x => if m < x then x else m) init
      = l.foldl Nat.max init := by
  induction l with
  | nil => intro init; rfl
  | cons a l ih =>
    intro init
    show l.foldl _ (if init < a then a else init) = l.foldl Nat.max (Nat.max init a)
    rw [ih]
    congr 1
    rw [Nat.max_eq_max]
    split_ifs <;> omega

theorem foldl_min_le_init (l : List Nat) :
    ∀ init, l.foldl Nat.min init ≤ init := by
  induction l with
  | nil => intro init; exact Nat.le_refl _
  | cons a l ih =>
    intro init
    exact Nat.le_trans (ih (Nat.min init a)) (Nat.min_le_left _ _)

theorem foldl_min_le_mem (l : List Nat) (x : Nat) :
    ∀ init, x ∈ l → l.foldl Nat.min init ≤ x := by
  induction l with
  | nil => intro _ h; cases h
  | cons a l ih =>
    intro init h
    rcases List.mem_cons.mp h with rfl | h
    · exact Nat.le_trans (foldl_min_le_init l (Nat.min init x))
        (Nat.min_le_right _ _)
    · exact ih _ h

theorem foldl_min_choice (l : List Nat) :
    ∀ init, l.foldl Nat.min init = init ∨ l.foldl Nat.min init ∈ l := by
  induction l with
  | nil => intro init; exact Or.inl rfl
  | cons a l ih =>
    intro init
    have hred : (a :: l).foldl Nat.min init = l.foldl Nat.min (Nat.min init a) :=
      rfl
    rcases ih (Nat.min init a) with h | h
    · rcases Nat.le_total init a with hle | hle
      · left; rw [hred, h, Nat.min_eq_min]; omega
      · right; rw [hred, h]
        have hma : Nat.min init a = a := by rw [Nat.min_eq_min]; omega
        rw [hma]; exact List.mem_cons_self a l
    · right; rw [hred]; exact List.mem_cons_of_mem a h

theorem foldl_min_ge (l : List Nat) (c : Nat) :
    ∀ init, (∀ x ∈ l, c ≤ x) → c ≤ init → c ≤ l.foldl Nat.min init := by
  induction l with
  | nil => intro _ _ h; exact h
  | cons a l ih =>
    intro init hall hinit
    exact ih _ (fun x hx => hall x (List.mem_cons_of_mem a hx))
      (le_min hinit (hall a (List.mem_cons_self a l)))

theorem foldl_min_eq_of (l : List Nat) (m init : Nat) (hmem : m ∈ l)
    (hlb : ∀ x ∈ l, m ≤ x) (hinit : m ≤ init) :
    l.foldl Nat.min init = m :=
  Nat.le_antisymm (foldl_min_le_mem l m init hmem)
    (foldl_min_ge l m init hlb hinit)

theorem foldl_max_ge_init (l : List Nat) :
    ∀ init, init ≤ l.foldl Nat.max init := by
  induction l with
  | nil => intro init; exact Nat.le_refl _
  | cons a l ih =>
    intro init
    exact Nat.le_trans (Nat.le_max_left init a) (ih (Nat.max init a))

theorem foldl_max_ge_mem (l : List Nat) (x : Nat) :
    ∀ init, x ∈ l → x ≤ l.foldl Nat.max init := by
  induction l with
  | nil => intro _ h; cases h
  | cons a l ih =>
    intro init h
    rcases List.mem_cons.mp h with rfl | h
    · exact Nat.le_trans (Nat.le_max_right init x)
        (foldl_max_ge_init l (Nat.max init x))
    · exact ih _ h

theorem foldl_max_choice (l : List Nat) :
    ∀ init, l.foldl Nat.max init = init ∨ l.foldl Nat.max init ∈ l := by
  induction l with
  | nil => intro init; exact Or.inl rfl
  | cons a l ih =>
    intro init
    have hred : (a :: l).foldl Nat.max init = l.foldl Nat.max (Nat.max init a) :=
      rfl
    rcases ih (Nat.max init a) with h | h
    · rcases Nat.le_total a init with hle | hle
      · left; rw [hred, h, Nat.max_eq_max]; omega
      · right; rw [hred, h]
        have hma : Nat.max init a = a := by rw [Nat.max_eq_max]; omega
        rw [hma]; exact List.mem_cons_self a l
    · right; rw [hred]; exact List.mem_cons_of_mem a h

theorem foldl_max_le (l : List Nat) (c : Nat) :
    ∀ init, (∀ x ∈ l, x ≤ c) → init ≤ c → l.foldl Nat.max init ≤ c := by
  induction l with
  | nil => intro _ _ h; exact h
  | cons a l ih =>
    intro init hall hinit
    exact ih _ (fun x hx => hall x (List.mem_cons_of_mem a hx))
      (max_le hinit (hall a (List.mem_cons_self a l)))

theorem foldl_max_eq_of (l : List Nat) (m init : Nat) (hmem : m ∈ l)
    (hub : ∀ x ∈ l, x ≤ m) (hinit : init ≤ m) :
    l.foldl Nat.max init = m :=
  Nat.le_antisymm (foldl_max_le l m init hub hinit)
    (foldl_max_ge_mem l m init hmem)

/-- C3: for any 7 history values in `[0, 100]`, the summing loop of
`getAverage` computes exactly `(sum of all 7 - smallest - largest) / 5`
(with integer truncation), where `mn` is any value attained in the buffer
and bounding it from below and `mx` any value attained and bounding it from
above; the result is the same for every permutation of the buffer. -/
theorem c3_trimmed_mean_formula (l : List Nat) (mn mx : Nat)
    (hlen : l.length = 7) (hub : ∀ x ∈ l, x ≤ 100)
    (hmn : mn ∈ l) (hmx : mx ∈ l)
    (hlb : ∀ x ∈ l, mn ≤ x) (hup : ∀ x ∈ l, x ≤ mx) :
    ∀ l' : List Nat, l.Perm l' → trimmedAvg l' = (l.sum - mn - mx) / 5 := by
  intro l' hp
  have hmem : ∀ x, x ∈ l' ↔ x ∈ l := fun x => (hp.mem_iff).symm
  have hsum100 : l.sum ≤ 700 := by
    have := List.sum_le_card_nsmul l 100 hub
    simpa [hlen] using this
  have hsum : l'.foldl (fun a x => a + x) 0 = l.sum := by
    rw [List.sum_eq_foldl]
    have : RightCommutative (fun (a x : Nat) => a + x) := ⟨fun b x y => by omega⟩
    exact (hp.foldl_eq 0).symm
  have hminf : l'.foldl (fun m x => if x < m then x else m) 100 = mn := by
    rw [foldl_stepMin_eq]
    exact foldl_min_eq_of l' mn 100 ((hmem mn).mpr hmn)
      (fun x hx => hlb x ((hmem x).mp hx)) (le_trans (hub mn hmn) (by omega))
  have hmaxf : l'.foldl (fun m x => if m < x then x else m) 0 = mx := by
    rw [foldl_stepMax_eq]
    exact foldl_max_eq_of l' mx 0 ((hmem mx).mpr hmx)
      (fun x hx => hup x ((hmem x).mp hx)) (Nat.zero_le _)
  show ((l'.foldl (fun a x => a + x) 0 -
      (l'.foldl (fun m x => if x < m then x else m) 100 +
       l'.foldl (fun m x => if m < x then x else m) 0)) / (MAX_LVLS - 2)) % 256
    = (l.sum - mn - mx) / 5
  rw [hsum, hminf, hmaxf]
  have h5 : MAX_LVLS - 2 = 5 := by decide
  rw [h5]
  have hsub : l.sum - (mn + mx) = l.sum - mn - mx := by omega
  rw [hsub]
  exact Nat.mod_eq_of_lt (by omega)

/-- C3 witness: a concrete 7-entry buffer and a permutation of it evaluate
to `(sum - min - max) / 5 = 30`. -/
theorem c3_trimmed_mean_formula_witness :
    ([0, 10, 20, 30, 100, 50, 40] : List Nat).length = 7 ∧
    trimmedAvg [100, 10, 20, 30, 0, 50, 40] =
      (([0, 10, 20, 30, 100, 50, 40] : List Nat).sum - 0 - 100) / 5 ∧
    trimmedAvg [100, 10, 20, 30, 0, 50, 40] = 30 :=
  ⟨rfl,
    c3_trimmed_mean_formula [0, 10, 20, 30, 100, 50, 40] 0 100 rfl
      (by decide) (by decide) (by decide) (by decide) (by decide)
      [100, 10, 20, 30, 0, 50, 40] (by decide),
    by decide⟩

theorem trimmedAvg_le_100 (l : List Nat) (B : Nat) (hlen : l.length = 7)
    (hB : B ≤ 100) (hub : ∀ x ∈ l, x ≤ B) : trimmedAvg l ≤ B := by
  have hne : l ≠ [] := by intro h; rw [h] at hlen; cases hlen
  obtain ⟨e0, he0⟩ := List.exists_mem_of_ne_nil l hne
  show ((l.foldl (fun a x => a + x) 0 -
      (l.foldl (fun m x => if x < m then x else m) 100 +
       l.foldl (fun m x => if m < x then x else m) 0)) / (MAX_LVLS - 2)) % 256
    ≤ B
  rw [foldl_stepMin_eq, foldl_stepMax_eq]
  set S := l.foldl (fun a x => a + x) 0 with hS
  set m := l.foldl Nat.min 100 with hm
  set M := l.foldl Nat.max 0 with hM
  have hSsum : S = l.sum := by rw [hS, List.sum_eq_foldl]
  have hm_le : ∀ x ∈ l, m ≤ x := fun x hx => foldl_min_le_mem l x 100 hx
  have hM_ge : ∀ x ∈ l, x ≤ M := fun x hx => foldl_max_ge_mem l x 0 hx
  have hm_mem : m ∈ l := by
    rcases foldl_min_choice l 100 with h | h
    · have hm100 : m = 100 := hm.trans h
      have h1 : e0 ≤ m := by rw [hm100]; exact le_trans (hub e0 he0) hB
      have h2 : e0 = m := le_antisymm h1 (hm_le e0 he0)
      rw [← h2]; exact he0
    · rw [hm]; exact h
  have hM_mem : M ∈ l := by
    rcases foldl_max_choice l 0 with h | h
    · have hM0 : M = 0 := hM.trans h
      have h1 : M ≤ e0 := by rw [hM0]; exact Nat.zero_le e0
      have h2 : e0 = M := le_antisymm (hM_ge e0 he0) h1
      rw [← h2]; exact he0
    · rw [hM]; exact h
  have hnum : S - (m + M) ≤ 5 * B := by
    by_cases hmM : m = M
    · have hall : ∀ x ∈ l, x = m := fun x hx =>
        le_antisymm (hmM ▸ hM_ge x hx) (hm_le x hx)
      have hup : l.sum ≤ l.length * m := by
        have := List.sum_le_card_nsmul l m (fun x hx => le_of_eq (hall x hx))
        simpa using this
      have hlow : l.length * m ≤ l.sum := by
        have := List.card_nsmul_le_sum l m
          (fun x hx => le_of_eq (hall x hx).symm)
        simpa using this
      rw [hlen] at hup hlow
      have hmB : m ≤ B := hub m hm_mem
      rw [hSsum]
      omega
    · have hm_rest : m ∈ l.erase M := (List.mem_erase_of_ne hmM).mpr hm_mem
      have hperm1 : l.Perm (M :: l.erase M) := List.perm_cons_erase hM_mem
      have hperm2 : (l.erase M).Perm (m :: (l.erase M).erase m) :=
        List.perm_cons_erase hm_rest
      have hsum1 : l.sum = M + (l.erase M).sum := by
        rw [hperm1.sum_eq, List.sum_cons]
      have hsum2 : (l.erase M).sum = m + ((l.erase M).erase m).sum := by
        rw [hperm2.sum_eq, List.sum_cons]
      have hlen2 : ((l.erase M).erase m).length = 5 := by
        rw [List.length_erase_of_mem hm_rest, List.length_erase_of_mem hM_mem,
            hlen]
      have hrest : ((l.erase M).erase m).sum ≤ 5 * B := by
        have := List.sum_le_card_nsmul ((l.erase M).erase m) B
          (fun x hx =>
            hub x (List.mem_of_mem_erase (List.mem_of_mem_erase hx)))
        rw [hlen2] at this
        simpa using this
      rw [hSsum]
      omega
  have h5 : MAX_LVLS - 2 = 5 := by decide
  rw [h5]
  exact le_trans (Nat.mod_le _ _) (by omega)

theorem trimmedAvg_le_113 (l : List Nat) (hlen : l.length = 7)
    (hub : ∀ x ∈ l, x ≤ 111) : trimmedAvg l ≤ 113 := by
  have hne : l ≠ [] := by intro h; rw [h] at hlen; cases hlen
  obtain ⟨e0, he0⟩ := List.exists_mem_of_ne_nil l hne
  show ((l.foldl (fun a x => a + x) 0 -
      (l.foldl (fun m x => if x < m then x else m) 100 +
       l.foldl (fun m x => if m < x then x else m) 0)) / (MAX_LVLS - 2)) % 256
    ≤ 113
  rw [foldl_stepMin_eq, foldl_stepMax_eq]
  set S := l.foldl (fun a x => a + x) 0 with hS
  set m := l.foldl Nat.min 100 with hm
  set M := l.foldl Nat.max 0 with hM
  have hSsum : S = l.sum := by rw [hS, List.sum_eq_foldl]
  have hm_le : ∀ x ∈ l, m ≤ x := fun x hx => foldl_min_le_mem l x 100 hx
  have hM_ge : ∀ x ∈ l, x ≤ M := fun x hx => foldl_max_ge_mem l x 0 hx
  have hM_mem : M ∈ l := by
    rcases foldl_max_choice l 0 with h | h
    · have hM0 : M = 0 := hM.trans h
      have h1 : M ≤ e0 := by rw [hM0]; exact Nat.zero_le e0
      have h2 : e0 = M := le_antisymm (hM_ge e0 he0) h1
      rw [← h2]; exact he0
    · rw [hM]; exact h
  have hperm1 : l.Perm (M :: l.erase M) := List.perm_cons_erase hM_mem
  have hsum1 : l.sum = M + (l.erase M).sum := by
    rw [hperm1.sum_eq, List.sum_cons]
  have hlen1 : (l.erase M).length = 6 := by
    rw [List.length_erase_of_mem hM_mem, hlen]
  have hnum : S - (m + M) ≤ 566 := by
    rcases foldl_min_choice l 100 with h | h
    · have hrest : (l.erase M).sum ≤ 6 * 111 := by
        have := List.sum_le_card_nsmul (l.erase M) 111
          (fun x hx => hub x (List.mem_of_mem_erase hx))
        rw [hlen1] at this
        simpa using this
      rw [hSsum, hm.trans h]
      omega
    · have hmem : m ∈ l := by rw [hm]; exact h
      by_cases hmM : m = M
      · have hall : ∀ x ∈ l, x = m := fun x hx =>
          le_antisymm (hmM ▸ hM_ge x hx) (hm_le x hx)
        have hup : l.sum ≤ l.length * m := by
          have := List.sum_le_card_nsmul l m (fun x hx => le_of_eq (hall x hx))
          simpa using this
        rw [hlen] at hup
        have hmB : m ≤ 111 := hub m hmem
        rw [hSsum]
        omega
      · have hm_rest : m ∈ l.erase M := (List.mem_erase_of_ne hmM).mpr hmem
        have hperm2 : (l.erase M).Perm (m :: (l.erase M).erase m) :=
          List.perm_cons_erase hm_rest
        have hsum2 : (l.erase M).sum = m + ((l.erase M).erase m).sum := by
          rw [hperm2.sum_eq, List.sum_cons]
        have hlen2 : ((l.erase M).erase m).length = 5 := by
          rw [List.length_erase_of_mem hm_rest, hlen1]
        have hrest : ((l.erase M).erase m).sum ≤ 5 * 111 := by
          have := List.sum_le_card_nsmul ((l.erase M).erase m) 111
            (fun x hx =>
              hub x (List.mem_of_mem_erase (List.mem_of_mem_erase hx)))
          rw [hlen2] at this
          simpa using this
        rw [hSsum]
        omega
  have h5 : MAX_LVLS - 2 = 5 := by decide
  rw [h5]
  exact le_trans (Nat.mod_le _ _) (by omega)

/-- C8 counterexample: the raw sample 1023 (a legal 10-bit reading above
`MAX_LVL`) maps through the unclamped linear formula to 111, which is
stored in the history buffer — so values above 100 do reach LevelHistory,
refuting the claimed 0..100 bound over the full sensor range. -/
theorem c8_counterexample :
    (1023:Nat) ≤ 1023 ∧
    (getTankLevel 1023 initState).2.lvls = [111, 0, 0, 0, 0, 0, 0] ∧
    ¬ (∀ x ∈ (getTankLevel 1023 initState).2.lvls, x ≤ 100) :=
  ⟨by decide, by decide, by decide⟩

/-- C8 amended: the 0..100 bound holds only for raw samples up to `MAX_LVL`
(with a history of values at most 100); over the full 0..1023 sensor range
the unclamped mapping can store values up to 111, and the returned percent
is then only bounded by 113 (the min-accumulator is initialised to 100, so
with every entry above 100 the trimmed sum discards less than one full
entry at the bottom). -/
theorem c8_amended_level_bounds (raw : Nat) (s : MachineState)
    (hlen : s.lvls.length = 7) :
    (raw ≤ MAX_LVL → (∀ x ∈ s.lvls, x ≤ 100) →
      (getTankLevel raw s).1 ≤ 100 ∧
      (getTankLevel raw s).2.lvls.length = 7 ∧
      (∀ x ∈ (getTankLevel raw s).2.lvls, x ≤ 100)) ∧
    (raw ≤ 1023 → (∀ x ∈ s.lvls, x ≤ 111) →
      (getTankLevel raw s).1 ≤ 113 ∧
      (getTankLevel raw s).2.lvls.length = 7 ∧
      (∀ x ∈ (getTankLevel raw s).2.lvls, x ≤ 111)) := by
  by_cases he : raw < ERR_LVL
  · constructor
    · intro _ hh
      refine ⟨?_, ?_, ?_⟩ <;> simp [getTankLevel, he, hlen]
      · exact fun x hx => hh x hx
    · intro _ hh
      refine ⟨?_, ?_, ?_⟩ <;> simp [getTankLevel, he, hlen]
      · exact fun x hx => hh x hx
  · by_cases hmin : raw < MIN_LVL
    · constructor
      · intro _ hh
        refine ⟨?_, ?_, ?_⟩ <;> simp [getTankLevel, he, hmin, hlen]
        · exact fun x hx => hh x hx
      · intro _ hh
        refine ⟨?_, ?_, ?_⟩ <;> simp [getTankLevel, he, hmin, hlen]
        · exact fun x hx => hh x hx
    · have hge : MIN_LVL ≤ raw := Nat.le_of_not_lt hmin
      have hgeE : ERR_LVL ≤ raw := Nat.le_of_not_lt he
      have hres : getTankLevel raw s =
          (trimmedAvg (s.lvls.set s.pos
              (((raw - MIN_LVL) * 100 / (MAX_LVL - MIN_LVL)) % 256)),
           { s with lvlerr := false,
                    lvls := s.lvls.set s.pos
                      (((raw - MIN_LVL) * 100 / (MAX_LVL - MIN_LVL)) % 256),
                    pos := (s.pos + 1) % MAX_LVLS }) := by
        simp [getTankLevel, he, hmin, getAverage]
      constructor
      · intro hraw hh
        have hmap : ((raw - MIN_LVL) * 100 / (MAX_LVL - MIN_LVL)) % 256 ≤ 100 := by
          have : (raw - MIN_LVL) * 100 / (MAX_LVL - MIN_LVL) ≤ 100 := by
            simp only [MIN_LVL, MAX_LVL] at *
            omega
          exact le_trans (Nat.mod_le _ _) this
        have hub : ∀ x ∈ s.lvls.set s.pos
            (((raw - MIN_LVL) * 100 / (MAX_LVL - MIN_LVL)) % 256), x ≤ 100 := by
          intro x hx
          rcases List.mem_or_eq_of_mem_set hx with hx' | hx'
          · exact hh x hx'
          · rw [hx']; exact hmap
        have hlen' : (s.lvls.set s.pos
            (((raw - MIN_LVL) * 100 / (MAX_LVL - MIN_LVL)) % 256)).length = 7 := by
          rw [List.length_set, hlen]
        rw [hres]
        exact ⟨trimmedAvg_le_100 _ 100 hlen' (le_refl _) hub, hlen', hub⟩
      · intro hraw hh
        have hmap : ((raw - MIN_LVL) * 100 / (MAX_LVL - MIN_LVL)) % 256 ≤ 111 := by
          have : (raw - MIN_LVL) * 100 / (MAX_LVL - MIN_LVL) ≤ 111 := by
            simp only [MIN_LVL, MAX_LVL] at *
            omega
          exact le_trans (Nat.mod_le _ _) this
        have hub : ∀ x ∈ s.lvls.set s.pos
            (((raw - MIN_LVL) * 100 / (MAX_LVL - MIN_LVL)) % 256), x ≤ 111 := by
          intro x hx
          rcases List.mem_or_eq_of_mem_set hx with hx' | hx'
          · exact hh x hx'
          · rw [hx']; exact hmap
        have hlen' : (s.lvls.set s.pos
            (((raw - MIN_LVL) * 100 / (MAX_LVL - MIN_LVL)) % 256)).length = 7 := by
          rw [List.length_set, hlen]
        rw [hres]
        exact ⟨trimmedAvg_le_113 _ hlen' hub, hlen', hub⟩

/-- C8 amended witness: the full-scale sample `MAX_LVL = 942` maps to 100
and keeps the zero-filled history within 0..100. -/
theorem c8_amended_level_bounds_witness :
    initState.lvls.length = 7 ∧ (942:Nat) ≤ MAX_LVL ∧
    ((getTankLevel 942 initState).1 ≤ 100 ∧
     (getTankLevel 942 initState).2.lvls.length = 7 ∧
     (∀ x ∈ (getTankLevel 942 initState).2.lvls, x ≤ 100)) :=
  ⟨by decide, by decide,
    (c8_amended_level_bounds 942 initState (by decide)).1 (by decide)
      (by decide)⟩

end Tonnenpumpe
